import Mathlib

/-
  Verification of the Label Health & Cross-Label Dependency Flow Analysis Engine
  (package `analysis` of the beads_viewer repository).

  Embedding conventions:
  * Go `float64` values are modelled as rationals (ℚ); `time.Time` instants are
    rationals measured in days, with 0 standing for Go's zero time, so that
    `t.Sub(u).Hours()/24` becomes `t - u` and `time.After`/`Before` become `<`.
  * Go `int` is modelled as `Int` (counts that are provably non-negative use `Nat`).
  * Go's `int(x)` float-to-int conversion (truncation toward zero) is `goTrunc`.
  * Go maps are modelled as association lists (insertion ordered) or as total
    functions defaulting to the zero value, matching Go map-lookup semantics;
    every externally visible list is produced by an explicit sort, as in the code.
  * Go string comparison is byte-lexicographic on UTF-8, which coincides with
    code-point lexicographic comparison; `strLt`/`strLe` implement that order.
-/

/-- Lexicographic strict comparison of char lists by code point. -/
def charsLt : List Char → List Char → Bool
  | [], [] => false
  | [], _ :: _ => true
  | _ :: _, [] => false
  | a :: as, b :: bs =>
    if a.toNat < b.toNat then true
    else if b.toNat < a.toNat then false
    else charsLt as bs

/-- Lexicographic non-strict comparison of char lists by code point. -/
def charsLe : List Char → List Char → Bool
  | [], _ => true
  | _ :: _, [] => false
  | a :: as, b :: bs =>
    if a.toNat < b.toNat then true
    else if b.toNat < a.toNat then false
    else charsLe as bs

/-- Go's `<` on strings (byte-lexicographic, equal to code-point lexicographic). -/
def strLt (a b : String) : Bool := charsLt a.data b.data

/-- Go's `<=` on strings. -/
def strLe (a b : String) : Bool := charsLe a.data b.data

theorem charsLe_refl (as : List Char) : charsLe as as = true := by
  induction as with
  | nil => rfl
  | cons a as ih => simp [charsLe, ih]

theorem charsLe_total (as bs : List Char) :
    charsLe as bs = true ∨ charsLe bs as = true := by
  induction as generalizing bs with
  | nil => exact Or.inl rfl
  | cons a as ih =>
    cases bs with
    | nil => exact Or.inr rfl
    | cons b bs =>
      by_cases hab : a.toNat < b.toNat
      · exact Or.inl (by simp [charsLe, hab])
      · by_cases hba : b.toNat < a.toNat
        · exact Or.inr (by simp [charsLe, hba, Nat.lt_asymm hba])
        · rcases ih bs with h | h
          · exact Or.inl (by simp [charsLe, hab, hba, h])
          · exact Or.inr (by simp [charsLe, hab, hba, h])

theorem charsLe_trans {as bs cs : List Char} (h1 : charsLe as bs = true)
    (h2 : charsLe bs cs = true) : charsLe as cs = true := by
  induction as generalizing bs cs with
  | nil => rfl
  | cons a as ih =>
    cases bs with
    | nil => simp [charsLe] at h1
    | cons b bs =>
      cases cs with
      | nil => simp [charsLe] at h2
      | cons c cs =>
        simp only [charsLe] at h1 h2 ⊢
        by_cases hab : a.toNat < b.toNat
        · by_cases hbc : b.toNat < c.toNat
          · simp [Nat.lt_trans hab hbc]
          · by_cases hcb : c.toNat < b.toNat
            · simp [hbc, hcb] at h2
            · have hbc2 : b.toNat = c.toNat := Nat.le_antisymm (Nat.le_of_not_lt hcb) (Nat.le_of_not_lt hbc)
              simp [hbc2 ▸ hab]
        · by_cases hba : b.toNat < a.toNat
          · simp [hab, hba] at h1
          · have hab2 : a.toNat = b.toNat := Nat.le_antisymm (Nat.le_of_not_lt hba) (Nat.le_of_not_lt hab)
            simp only [hab, hba, if_neg, if_false, ite_false, if_true] at h1
            by_cases hbc : b.toNat < c.toNat
            · simp [hab2 ▸ hbc]
            · by_cases hcb : c.toNat < b.toNat
              · simp [hbc, hcb] at h2
              · have hbc2 : b.toNat = c.toNat := Nat.le_antisymm (Nat.le_of_not_lt hcb) (Nat.le_of_not_lt hbc)
                simp only [hbc, hcb, if_neg, if_false, ite_false, if_true] at h2
                have : ¬ a.toNat < c.toNat := by omega
                have h2' : ¬ c.toNat < a.toNat := by omega
                simp [this, h2', ih h1 h2]

theorem charsLt_asymm {as bs : List Char} (h : charsLt as bs = true) :
    charsLt bs as = false := by
  induction as generalizing bs with
  | nil =>
    cases bs with
    | nil => rfl
    | cons b bs => rfl
  | cons a as ih =>
    cases bs with
    | nil => simp [charsLt] at h
    | cons b bs =>
      simp only [charsLt] at h ⊢
      by_cases hab : a.toNat < b.toNat
      · simp [Nat.lt_asymm hab, hab]
      · by_cases hba : b.toNat < a.toNat
        · simp [hab, hba] at h
        · simp only [hab, hba, if_neg, if_false, ite_false] at h ⊢
          simp [ih h]

theorem charsLt_trans {as bs cs : List Char} (h1 : charsLt as bs = true)
    (h2 : charsLt bs cs = true) : charsLt as cs = true := by
  induction as generalizing bs cs with
  | nil =>
    cases cs with
    | nil =>
      cases bs with
      | nil => exact h1
      | cons b bs => simp [charsLt] at h2
    | cons c cs => rfl
  | cons a as ih =>
    cases bs with
    | nil => simp [charsLt] at h1
    | cons b bs =>
      cases cs with
      | nil => simp [charsLt] at h2
      | cons c cs =>
        simp only [charsLt] at h1 h2 ⊢
        by_cases hab : a.toNat < b.toNat
        · by_cases hbc : b.toNat < c.toNat
          · simp [Nat.lt_trans hab hbc]
          · by_cases hcb : c.toNat < b.toNat
            · simp [hbc, hcb] at h2
            · have : a.toNat < c.toNat := by omega
              simp [this]
        · by_cases hba : b.toNat < a.toNat
          · simp [hab, hba] at h1
          · simp only [hab, hba, if_neg, if_false, ite_false] at h1
            by_cases hbc : b.toNat < c.toNat
            · have : a.toNat < c.toNat := by omega
              simp [this]
            · by_cases hcb : c.toNat < b.toNat
              · simp [hbc, hcb] at h2
              · simp only [hbc, hcb, if_neg, if_false, ite_false] at h2
                have hac : ¬ a.toNat < c.toNat := by omega
                have hca : ¬ c.toNat < a.toNat := by omega
                simp [hac, hca, ih h1 h2]

theorem charsLt_trichotomy (as bs : List Char) :
    charsLt as bs = true ∨ as = bs ∨ charsLt bs as = true := by
  induction as generalizing bs with
  | nil =>
    cases bs with
    | nil => exact Or.inr (Or.inl rfl)
    | cons b bs => exact Or.inl rfl
  | cons a as ih =>
    cases bs with
    | nil => exact Or.inr (Or.inr rfl)
    | cons b bs =>
      by_cases hab : a.toNat < b.toNat
      · exact Or.inl (by simp [charsLt, hab])
      · by_cases hba : b.toNat < a.toNat
        · exact Or.inr (Or.inr (by simp [charsLt, hba, Nat.lt_asymm hba]))
        · have htoNat : a.toNat = b.toNat :=
            Nat.le_antisymm (Nat.le_of_not_lt hba) (Nat.le_of_not_lt hab)
          have heq : a = b := Char.ext (UInt32.ext htoNat)
          rcases ih bs with h | h | h
          · exact Or.inl (by simp [charsLt, hab, hba, h])
          · exact Or.inr (Or.inl (by rw [heq, h]))
          · exact Or.inr (Or.inr (by simp [charsLt, hab, hba, heq, h]))

theorem strLe_total (a b : String) : strLe a b = true ∨ strLe b a = true :=
  charsLe_total a.data b.data

theorem strLe_trans {a b c : String} (h1 : strLe a b = true) (h2 : strLe b c = true) :
    strLe a c = true :=
  charsLe_trans h1 h2

theorem strLt_asymm {a b : String} (h : strLt a b = true) : strLt b a = false :=
  charsLt_asymm h

theorem strLt_trans {a b c : String} (h1 : strLt a b = true) (h2 : strLt b c = true) :
    strLt a c = true :=
  charsLt_trans h1 h2

theorem strLt_trichotomy (a b : String) :
    strLt a b = true ∨ a = b ∨ strLt b a = true := by
  rcases charsLt_trichotomy a.data b.data with h | h | h
  · exact Or.inl h
  · exact Or.inr (Or.inl (by cases a; cases b; exact congrArg String.mk h))
  · exact Or.inr (Or.inr h)

/-- The non-strict string order used by every label sort (Go `sort.Strings`). -/
def labelLe (a b : String) : Prop := strLe a b = true

instance : DecidableRel labelLe := fun a b => by unfold labelLe; infer_instance

instance : IsTotal String labelLe := ⟨strLe_total⟩

instance : IsTrans String labelLe := ⟨fun _ _ _ => strLe_trans⟩

/-- Model of Go's `sort.Strings` (ascending byte-lexicographic sort). -/
def sortStrings (l : List String) : List String := List.insertionSort labelLe l

-- ============================================================================
-- Data model
-- ============================================================================

/-- Modelled from the spec: the dependency record of the external issue model
    (spec section 3); the `model` package is not under src/. `Type` is one of the
    spec's dependency-kind strings, with "blocks" the one this engine inspects. -/
structure Dependency where
  dependsOnID : String := ""
  depType : String := ""
deriving DecidableEq

/-- Modelled from the spec: the read-only issue record (spec section 3); the
    `model` package is not under src/. Status is a string from
    {open, in_progress, blocked, closed} (unknown values allowed), timestamps are
    rationals in days with 0 for Go's zero time, and `dependencies` is a list of
    possibly-nil pointers. -/
structure Issue where
  id : String := ""
  status : String := ""
  priority : Int := 0
  issueType : String := ""
  labels : List String := []
  createdAt : ℚ := 0
  updatedAt : ℚ := 0
  closedAt : Option ℚ := none
  dependencies : List (Option Dependency) := []

def statusOpen : String := "open"

def statusInProgress : String := "in_progress"

def statusBlocked : String := "blocked"

def statusClosed : String := "closed"

def depBlocks : String := "blocks"

-- ============================================================================
-- Score helpers (clampScore, Go float-to-int conversion, health levels)
-- ============================================================================

/-- `clampScore` from the source: clamp an int score to [0, 100]. -/
def clampScore (v : Int) : Int :=
  if v < 0 then 0 else if v > 100 then 100 else v

/-- Go's `int(x)` conversion of a float: truncation toward zero. -/
def goTrunc (q : ℚ) : Int := if 0 ≤ q then ⌊q⌋ else ⌈q⌉

def DefaultStaleThresholdDays : Int := 14

def HealthyThreshold : Int := 70

def WarningThreshold : Int := 40

def HealthLevelHealthy : String := "healthy"

def HealthLevelWarning : String := "warning"

def HealthLevelCritical : String := "critical"

/-- `HealthLevelFromScore` from the source. -/
def HealthLevelFromScore (score : Int) : String :=
  if score ≥ HealthyThreshold then HealthLevelHealthy
  else if score ≥ WarningThreshold then HealthLevelWarning
  else HealthLevelCritical

theorem clampScore_nonneg (v : Int) : 0 ≤ clampScore v := by
  unfold clampScore; split <;> [omega; skip]; split <;> omega

theorem clampScore_le_100 (v : Int) : clampScore v ≤ 100 := by
  unfold clampScore; split <;> [omega; skip]; split <;> omega

theorem clampScore_of_nonpos {v : Int} (h : v ≤ 0) : clampScore v = 0 := by
  unfold clampScore; split <;> [rfl; skip]; split <;> omega

theorem clampScore_eq_min_max (v : Int) : clampScore v = min 100 (max 0 v) := by
  unfold clampScore; split <;> [skip; split] <;> omega

theorem goTrunc_nonneg {q : ℚ} (h : 0 ≤ q) : 0 ≤ goTrunc q := by
  unfold goTrunc
  rw [if_pos h]
  exact Int.le_floor.mpr (by exact_mod_cast h)

theorem goTrunc_le_100 {q : ℚ} (h : q ≤ 100) : goTrunc q ≤ 100 := by
  unfold goTrunc
  split
  · have : (⌊q⌋ : ℚ) ≤ 100 := le_trans (Int.floor_le q) h
    exact_mod_cast this
  · have hq : q ≤ 0 := le_of_lt (lt_of_not_ge (by assumption))
    have hc : ⌈q⌉ ≤ 0 := by
      have := Int.ceil_mono hq
      simpa using this
    omega

theorem goTrunc_eq_floor_of_nonneg {q : ℚ} (h : 0 ≤ q) : goTrunc q = ⌊q⌋ := by
  unfold goTrunc; rw [if_pos h]

theorem clampScore_goTrunc_eq_clampScore_floor (q : ℚ) :
    clampScore (goTrunc q) = clampScore ⌊q⌋ := by
  by_cases h : 0 ≤ q
  · rw [goTrunc_eq_floor_of_nonneg h]
  · have hq : q < 0 := lt_of_not_ge h
    unfold goTrunc
    rw [if_neg h]
    have hceil : ⌈q⌉ ≤ 0 := by
      have := Int.ceil_mono (le_of_lt hq)
      simpa using this
    have hfloor : ⌊q⌋ ≤ 0 := by
      have := Int.floor_mono (le_of_lt hq)
      simpa using this
    rw [clampScore_of_nonpos hceil, clampScore_of_nonpos hfloor]

-- ============================================================================
-- Label extraction (ExtractLabels and friends, bv-101)
-- ============================================================================

/-- `LabelStats` from the source. `byPriority`/`byType` model Go maps as total
    functions defaulting to 0. `blocked` exists on the struct but is never set by
    `ExtractLabels`. -/
structure LabelStats where
  label : String := ""
  totalCount : Nat := 0
  openCount : Nat := 0
  closedCount : Nat := 0
  inProgress : Nat := 0
  blocked : Nat := 0
  byPriority : Int → Nat := fun _ => 0
  byType : String → Nat := fun _ => 0
  issueIDs : List String := []

/-- `LabelExtractionResult` from the source; the `stats` Go map is an association
    list in first-seen order (iteration order never leaks: outputs are sorted). -/
structure LabelExtractionResult where
  labels : List String := []
  labelCount : Nat := 0
  stats : List (String × LabelStats) := []
  issueCount : Nat := 0
  unlabeledCount : Nat := 0
  topLabels : List String := []

/-- One occurrence of `label` on `iss`: the per-label count updates inside the
    `ExtractLabels` loop (status switch counts only open/closed/in_progress). -/
def bumpStats (s : LabelStats) (iss : Issue) : LabelStats :=
  { s with
    totalCount := s.totalCount + 1
    issueIDs := s.issueIDs ++ [iss.id]
    openCount := if iss.status = statusOpen then s.openCount + 1 else s.openCount
    closedCount := if iss.status = statusClosed then s.closedCount + 1 else s.closedCount
    inProgress := if iss.status = statusInProgress then s.inProgress + 1 else s.inProgress
    byPriority := fun p => if p = iss.priority then s.byPriority p + 1 else s.byPriority p
    byType := fun t => if t = iss.issueType then s.byType t + 1 else s.byType t }

/-- Go map upsert for the stats map: update the existing entry for `label`, or
    append a fresh `LabelStats` (as `ExtractLabels` initializes it) at first sight. -/
def statsInsert (stats : List (String × LabelStats)) (label : String) (iss : Issue) :
    List (String × LabelStats) :=
  match stats with
  | [] => [(label, bumpStats { label := label } iss)]
  | (k, s) :: rest =>
    if k = label then (k, bumpStats s iss) :: rest
    else (k, s) :: statsInsert rest label iss

/-- Go map lookup `result.Stats[label]` (nil when absent). -/
def lookupStats (stats : List (String × LabelStats)) (k : String) : Option LabelStats :=
  (stats.find? (fun p => decide (p.1 = k))).map (·.2)

/-- The non-strict order of `sortLabelsByCount`: total issue count descending,
    label ascending for ties. -/
def countRel (a b : String × Nat) : Prop :=
  b.2 < a.2 ∨ (a.2 = b.2 ∧ strLe a.1 b.1 = true)

instance : DecidableRel countRel := fun a b => by unfold countRel; infer_instance

/-- `sortLabelsByCount` from the source: labels sorted by total count descending,
    alphabetical tie-break. -/
def sortLabelsByCount (stats : List (String × LabelStats)) : List String :=
  (List.insertionSort countRel (stats.map (fun p => (p.1, p.2.totalCount)))).map (·.1)

/-- The body of the `ExtractLabels` issue loop: bump `unlabeledCount` for
    label-less issues, then upsert stats for each non-empty label. -/
def extractStep (acc : LabelExtractionResult) (iss : Issue) : LabelExtractionResult :=
  let acc := if iss.labels = [] then { acc with unlabeledCount := acc.unlabeledCount + 1 } else acc
  iss.labels.foldl (fun acc label =>
    if label = "" then acc
    else { acc with stats := statsInsert acc.stats label iss }) acc

/-- `ExtractLabels` from the source. The Go early return for an empty slice
    produces the same record as the general path, so it is not a separate case. -/
def ExtractLabels (issues : List Issue) : LabelExtractionResult :=
  let core := issues.foldl extractStep { issueCount := issues.length }
  let sortedLabels := sortStrings (core.stats.map (·.1))
  { core with
    labels := sortedLabels
    labelCount := sortedLabels.length
    topLabels := sortLabelsByCount core.stats }

/-- `GetLabelIssues` from the source. -/
def GetLabelIssues (issues : List Issue) (label : String) : List Issue :=
  issues.filter (fun iss => decide (label ∈ iss.labels))

/-- `GetLabelsForIssue` from the source (nil, i.e. [], when the ID is unknown). -/
def GetLabelsForIssue (issues : List Issue) (issueID : String) : List String :=
  match issues.find? (fun iss => decide (iss.id = issueID)) with
  | some iss => iss.labels
  | none => []

/-- One `cooc[a][b]++` of `GetLabelCooccurrence` (Go nested map as a total
    function defaulting to 0; a key is present iff its count is positive, since
    entries are only ever created by incrementing). -/
def coocBump (m : String → String → Nat) (a b : String) : String → String → Nat :=
  fun x y => if x = a ∧ y = b then m x y + 1 else m x y

/-- One unordered pair visit of `GetLabelCooccurrence`: order the pair, then
    increment both directions (no self-pair or empty-label guard in the source). -/
def coocPairStep (m : String → String → Nat) (l1 l2 : String) : String → String → Nat :=
  let p := if strLt l2 l1 = true then (l2, l1) else (l1, l2)
  coocBump (coocBump m p.1 p.2) p.2 p.1

/-- The double loop `for i; for j > i` over one issue's label list. -/
def coocIssue : List String → (String → String → Nat) → String → String → Nat
  | [], m => m
  | x :: rest, m => coocIssue rest (rest.foldl (fun m y => coocPairStep m x y) m)

/-- `GetLabelCooccurrence` from the source. -/
def GetLabelCooccurrence (issues : List Issue) : String → String → Nat :=
  issues.foldl (fun m iss => coocIssue iss.labels m) (fun _ _ => 0)

-- ============================================================================
-- Cross-label flow (ComputeCrossLabelFlow, bv-100)
-- ============================================================================

/-- `BlockingPair` from the source. -/
structure BlockingPair where
  blockerID : String := ""
  blockedID : String := ""
  blockerLabel : String := ""
  blockedLabel : String := ""
deriving DecidableEq

/-- `LabelDependency` from the source. -/
structure LabelDependency where
  fromLabel : String := ""
  toLabel : String := ""
  issueCount : Nat := 0
  issueIDs : List String := []
  blockingPairs : List BlockingPair := []
deriving DecidableEq

/-- `LabelPath` from the source (declared but never populated by
    `ComputeCrossLabelFlow`). -/
structure LabelPath where
  labels : List String := []
  length : Nat := 0
  issueCount : Nat := 0
  totalWeight : ℚ := 0

/-- `CrossLabelFlow` from the source. -/
structure CrossLabelFlow where
  labels : List String := []
  flowMatrix : List (List Nat) := []
  dependencies : List LabelDependency := []
  criticalPaths : List LabelPath := []
  bottleneckLabels : List String := []
  totalCrossLabelDeps : Nat := 0

/-- `LabelHealthConfig` from the source (weights are Go floats, so rationals). -/
structure LabelHealthConfig where
  staleThresholdDays : Int := 0
  velocityWeight : ℚ := 0
  freshnessWeight : ℚ := 0
  flowWeight : ℚ := 0
  criticalityWeight : ℚ := 0
  minIssuesForHealth : Int := 0
  includeClosedInFlow : Bool := false

/-- `DefaultLabelHealthConfig` from the source. -/
def DefaultLabelHealthConfig : LabelHealthConfig :=
  { staleThresholdDays := DefaultStaleThresholdDays
    velocityWeight := 1/4
    freshnessWeight := 1/4
    flowWeight := 1/4
    criticalityWeight := 1/4
    minIssuesForHealth := 1
    includeClosedInFlow := false }

/-- Index lookup in the label list (the Go `index` map with its `ok` flag). -/
def findIdx (l : String) : List String → Option Nat
  | [] => none
  | x :: xs => if x = l then some 0 else (findIdx l xs).map (· + 1)

/-- The Go `issueMap` built by one pass over the slice (later IDs overwrite). -/
def issueMapLookup (issues : List Issue) (id : String) : Option Issue :=
  issues.foldl (fun acc iss => if iss.id = id then some iss else acc) none

/-- `row[j]++`. -/
def bumpRow (row : List Nat) (j : Nat) : List Nat := row.set j (row.getD j 0 + 1)

/-- `matrix[i][j]++`. -/
def bumpMatrix (m : List (List Nat)) (i j : Nat) : List (List Nat) :=
  m.set i (bumpRow (m.getD i []) j)

/-- Go map upsert for the `depMap` aggregation keyed by (from, to). -/
def depInsert : List ((String × String) × LabelDependency) → String → String → String →
    String → List ((String × String) × LabelDependency)
  | [], fl, tl, blockerID, blockedID =>
    [((fl, tl),
      { fromLabel := fl, toLabel := tl, issueCount := 1, issueIDs := [blockedID]
        blockingPairs := [{ blockerID := blockerID, blockedID := blockedID,
                            blockerLabel := fl, blockedLabel := tl }] })]
  | (k, d) :: rest, fl, tl, blockerID, blockedID =>
    if k = (fl, tl) then
      (k, { d with issueCount := d.issueCount + 1
                   issueIDs := d.issueIDs ++ [blockedID]
                   blockingPairs := d.blockingPairs ++
                     [{ blockerID := blockerID, blockedID := blockedID,
                        blockerLabel := fl, blockedLabel := tl }] }) :: rest
    else (k, d) :: depInsert rest fl tl blockerID blockedID

/-- The mutable state of the cross-label pass: the matrix, the running total and
    the dependency aggregation map. -/
structure FlowAccum where
  matrix : List (List Nat) := []
  total : Nat := 0
  deps : List ((String × String) × LabelDependency) := []

/-- One (from, to) label pair of the cross product: skip empty or equal labels,
    skip labels missing from the index, otherwise bump matrix, total and depMap. -/
def flowPairStep (idx : String → Option Nat) (blocker blocked : Issue)
    (st : FlowAccum) (fl tl : String) : FlowAccum :=
  if fl = "" ∨ tl = "" ∨ fl = tl then st
  else
    match idx fl, idx tl with
    | some i, some j =>
      { matrix := bumpMatrix st.matrix i j
        total := st.total + 1
        deps := depInsert st.deps fl tl blocker.id blocked.id }
    | _, _ => st

/-- One dependency of a blocked issue: only non-nil `blocks` edges whose blocker
    resolves (and is not closed, under the flag) contribute, via the full
    cross-product of `blocker.Labels × blocked.Labels`. -/
def flowDepStep (cfg : LabelHealthConfig) (imap : String → Option Issue)
    (idx : String → Option Nat) (blocked : Issue) (st : FlowAccum)
    (dep : Option Dependency) : FlowAccum :=
  match dep with
  | none => st
  | some d =>
    if d.depType ≠ depBlocks then st
    else
      match imap d.dependsOnID with
      | none => st
      | some blocker =>
        if ¬cfg.includeClosedInFlow ∧ blocker.status = statusClosed then st
        else
          blocker.labels.foldl (fun st fl =>
            blocked.labels.foldl (fun st tl => flowPairStep idx blocker blocked st fl tl) st) st

/-- The dependency sort order of `ComputeCrossLabelFlow`: FromLabel ascending,
    then ToLabel ascending, then IssueCount descending for ties. -/
def depSortRel (a b : LabelDependency) : Prop :=
  strLt a.fromLabel b.fromLabel = true ∨
    (a.fromLabel = b.fromLabel ∧ (strLt a.toLabel b.toLabel = true ∨
      (a.toLabel = b.toLabel ∧ b.issueCount ≤ a.issueCount)))

instance : DecidableRel depSortRel := fun a b => by unfold depSortRel; infer_instance

/-- `ComputeCrossLabelFlow` from the source. -/
def ComputeCrossLabelFlow (issues : List Issue) (cfg : LabelHealthConfig) : CrossLabelFlow :=
  let labelList := sortStrings (ExtractLabels issues).labels
  let n := labelList.length
  let idx := fun l => findIdx l labelList
  let imap := issueMapLookup issues
  let st := issues.foldl (fun st blocked =>
      if ¬cfg.includeClosedInFlow ∧ blocked.status = statusClosed then st
      else blocked.dependencies.foldl (flowDepStep cfg imap idx blocked) st)
    { matrix := List.replicate n (List.replicate n 0), total := 0, deps := [] }
  let deps := List.insertionSort depSortRel (st.deps.map (·.2))
  let outCounts : List (String × Nat) :=
    labelList.zip (st.matrix.map (fun row => row.foldl (· + ·) 0))
  let maxOut : Nat := outCounts.foldl (fun m p => max m p.2) 0
  let bottlenecks :=
    sortStrings ((outCounts.filter
      (fun (p : String × Nat) => decide (p.2 = maxOut ∧ 0 < p.2))).map (·.1))
  { labels := labelList
    flowMatrix := st.matrix
    dependencies := deps
    bottleneckLabels := bottlenecks
    totalCrossLabelDeps := st.total }

-- ============================================================================
-- Velocity metrics (ComputeVelocityMetrics, bv-102)
-- ============================================================================

/-- `VelocityMetrics` from the source. -/
structure VelocityMetrics where
  closedLast7Days : Nat := 0
  closedLast30Days : Nat := 0
  avgDaysToClose : ℚ := 0
  trendDirection : String := ""
  trendPercent : ℚ := 0
  velocityScore : Int := 0

/-- The running totals of the `ComputeVelocityMetrics` loop. -/
structure VelocityAccum where
  closed7 : Nat := 0
  closed30 : Nat := 0
  totalCloseDur : ℚ := 0
  closeSamples : Nat := 0
  prevWeek : Nat := 0
  currentWeek : Nat := 0

/-- One issue of the `ComputeVelocityMetrics` loop (skips issues without
    ClosedAt; `After`/`Before` are strict comparisons; windows are
    `weekAgo = now-7`, `monthAgo = now-30`, `prevWeekStart = now-14`). -/
def velocityStep (now : ℚ) (acc : VelocityAccum) (iss : Issue) : VelocityAccum :=
  match iss.closedAt with
  | none => acc
  | some closedAt =>
    let acc := if now - 7 < closedAt then { acc with closed7 := acc.closed7 + 1 } else acc
    let acc := if now - 30 < closedAt then { acc with closed30 := acc.closed30 + 1 } else acc
    let acc :=
      if now - 14 < closedAt ∧ closedAt < now - 7 then
        { acc with prevWeek := acc.prevWeek + 1 }
      else if now - 7 < closedAt then
        { acc with currentWeek := acc.currentWeek + 1 }
      else acc
    if iss.createdAt ≠ 0 then
      { acc with totalCloseDur := acc.totalCloseDur + (closedAt - iss.createdAt)
                 closeSamples := acc.closeSamples + 1 }
    else acc

/-- `ComputeVelocityMetrics` from the source. -/
def ComputeVelocityMetrics (issues : List Issue) (now : ℚ) : VelocityMetrics :=
  let a := issues.foldl (velocityStep now) {}
  let avgDays : ℚ := if 0 < a.closeSamples then a.totalCloseDur / (a.closeSamples : ℚ) else 0
  let tp : ℚ :=
    if 0 < a.prevWeek then ((a.currentWeek : ℚ) - (a.prevWeek : ℚ)) / (a.prevWeek : ℚ) * 100
    else if 0 < a.currentWeek then 100
    else 0
  let trendDir : String :=
    if 0 < a.prevWeek then
      (if 10 < tp then "improving" else if tp < -10 then "declining" else "stable")
    else if 0 < a.currentWeek then "improving"
    else "stable"
  let velocityScore : Int :=
    if 0 < a.closed30 then goTrunc (min 100 ((a.closed30 : ℚ) * 10)) else 0
  let velocityScore : Int :=
    if trendDir = "improving" ∧ velocityScore < 100 then clampScore (velocityScore + 10)
    else velocityScore
  { closedLast7Days := a.closed7
    closedLast30Days := a.closed30
    avgDaysToClose := avgDays
    trendDirection := trendDir
    trendPercent := tp
    velocityScore := velocityScore }

-- ============================================================================
-- Freshness metrics (ComputeFreshnessMetrics, bv-102)
-- ============================================================================

/-- `FreshnessMetrics` from the source. -/
structure FreshnessMetrics where
  mostRecentUpdate : ℚ := 0
  oldestOpenIssue : ℚ := 0
  avgDaysSinceUpdate : ℚ := 0
  staleCount : Nat := 0
  staleThresholdDays : Int := 0
  freshnessScore : Int := 0

/-- The running totals of the `ComputeFreshnessMetrics` loop. -/
structure FreshAccum where
  mostRecent : ℚ := 0
  oldestOpen : ℚ := 0
  totalStaleness : ℚ := 0
  count : Nat := 0
  staleCount : Nat := 0

/-- One issue of the `ComputeFreshnessMetrics` loop. -/
def freshStep (now threshold : ℚ) (acc : FreshAccum) (iss : Issue) : FreshAccum :=
  let acc := if acc.mostRecent < iss.updatedAt then { acc with mostRecent := iss.updatedAt } else acc
  let acc :=
    if iss.status ≠ statusClosed ∧ (acc.oldestOpen = 0 ∨ iss.createdAt < acc.oldestOpen) then
      { acc with oldestOpen := iss.createdAt }
    else acc
  if iss.updatedAt ≠ 0 then
    let days := now - iss.updatedAt
    { acc with totalStaleness := acc.totalStaleness + days
               count := acc.count + 1
               staleCount := if threshold ≤ days then acc.staleCount + 1 else acc.staleCount }
  else acc

/-- `ComputeFreshnessMetrics` from the source (non-positive threshold falls back
    to the 14-day default; the score declines linearly to 0 at twice the
    threshold, truncated to int and clamped). -/
def ComputeFreshnessMetrics (issues : List Issue) (now : ℚ) (staleDays : Int) :
    FreshnessMetrics :=
  let staleDays := if staleDays ≤ 0 then DefaultStaleThresholdDays else staleDays
  let threshold : ℚ := (staleDays : ℚ)
  let a := issues.foldl (freshStep now threshold) {}
  let avgStaleness : ℚ := if 0 < a.count then a.totalStaleness / (a.count : ℚ) else 0
  let freshnessScore := goTrunc (max 0 (100 - avgStaleness / (threshold * 2) * 100))
  { mostRecentUpdate := a.mostRecent
    oldestOpenIssue := a.oldestOpen
    avgDaysSinceUpdate := avgStaleness
    staleCount := a.staleCount
    staleThresholdDays := staleDays
    freshnessScore := clampScore freshnessScore }

-- ============================================================================
-- Composite health, per-label health, orchestrator
-- ============================================================================

/-- `FlowMetrics` from the source. -/
structure FlowMetrics where
  incomingDeps : Nat := 0
  outgoingDeps : Nat := 0
  incomingLabels : List String := []
  outgoingLabels : List String := []
  blockedByExternal : Nat := 0
  blockingExternal : Nat := 0
  flowScore : Int := 0

/-- `CriticalityMetrics` from the source. -/
structure CriticalityMetrics where
  avgPageRank : ℚ := 0
  avgBetweenness : ℚ := 0
  maxBetweenness : ℚ := 0
  criticalPathCount : Nat := 0
  bottleneckCount : Nat := 0
  criticalityScore : Int := 0

/-- `LabelHealth` from the source. -/
structure LabelHealth where
  label : String := ""
  issueCount : Nat := 0
  openCount : Nat := 0
  closedCount : Nat := 0
  blocked : Nat := 0
  health : Int := 0
  healthLevel : String := ""
  velocity : VelocityMetrics := {}
  freshness : FreshnessMetrics := {}
  flow : FlowMetrics := {}
  criticality : CriticalityMetrics := {}
  issues : List String := []

/-- `ComputeCompositeHealth` from the source: weighted sum with the
    caller-supplied weights applied as-is, +0.5, Go int conversion, clamp. -/
def ComputeCompositeHealth (velocity freshness flow criticality : Int)
    (cfg : LabelHealthConfig) : Int :=
  clampScore (goTrunc ((velocity : ℚ) * cfg.velocityWeight +
    (freshness : ℚ) * cfg.freshnessWeight + (flow : ℚ) * cfg.flowWeight +
    (criticality : ℚ) * cfg.criticalityWeight + 1/2))

/-- `NeedsAttention` from the source. -/
def NeedsAttention (health : LabelHealth) : Bool := decide (health.health < HealthyThreshold)

/-- `NewLabelHealth` from the source. -/
def NewLabelHealth (label : String) : LabelHealth :=
  { label := label
    health := 100
    healthLevel := HealthLevelHealthy
    velocity := { trendDirection := "stable", velocityScore := 100 }
    freshness := { staleThresholdDays := DefaultStaleThresholdDays, freshnessScore := 100 }
    flow := { flowScore := 100 }
    criticality := { criticalityScore := 50 } }

/-- Modelled from the spec: the external centrality snapshot (spec sections 4.5
    and 6) — the graph-analysis module (`Analyzer`, `GraphStats`, PageRank,
    betweenness, critical-path scores, `findMax`) is not under src/. The
    PageRank and betweenness maps are association lists over issue IDs (a missing
    ID reads as 0, like a Go map), their values are non-negative per the
    collaborator contract, and `findMaxQ` is the maximum value across the whole
    map (0 when empty). -/
structure GraphStats where
  pageRank : List (String × ℚ) := []
  betweenness : List (String × ℚ) := []
  criticalPathScore : String → ℚ := fun _ => 0

/-- Go map lookup in a rational-valued map (missing keys read as 0). -/
def lookupQ (m : List (String × ℚ)) (k : String) : ℚ :=
  ((m.find? (fun p => decide (p.1 = k))).map (·.2)).getD 0

/-- Modelled from the spec: `findMax` over a Go map's values (spec section 4.5:
    the global maximum across all issues, used as normalization denominator). -/
def findMaxQ (m : List (String × ℚ)) : ℚ :=
  m.foldl (fun acc p => if acc < p.2 then p.2 else acc) 0

/-- The status-count triple (closed, open, blocked) of the
    `ComputeLabelHealthForLabel` switch: closed counts as closed, in_progress and
    the default (open or unknown) count as open, blocked counts as blocked. -/
def statusCountsStep (c : Nat × Nat × Nat) (iss : Issue) : Nat × Nat × Nat :=
  if iss.status = statusClosed then (c.1 + 1, c.2.1, c.2.2)
  else if iss.status = statusInProgress then (c.1, c.2.1 + 1, c.2.2)
  else if iss.status = statusBlocked then (c.1, c.2.1, c.2.2 + 1)
  else (c.1, c.2.1 + 1, c.2.2)

/-- The per-label flow accumulation of `ComputeLabelHealthForLabel`. -/
structure FlowCount where
  incomingDeps : Nat := 0
  outgoingDeps : Nat := 0
  seenIn : List String := []
  seenOut : List String := []

/-- Set insertion for the Go `seenIn`/`seenOut` map-as-set (the output is sorted
    afterwards, so insertion position never leaks). -/
def insertSeen (l : List String) (x : String) : List String :=
  if x ∈ l then l else l ++ [x]

/-- The per-issue flow pass of `ComputeLabelHealthForLabel`: for each non-nil
    `blocks` dependency, incoming counts every blocker label different from this
    label, and outgoing counts the blocked issue's own other labels. -/
def flowCountStep (issues : List Issue) (label : String) (fc : FlowCount) (iss : Issue) :
    FlowCount :=
  iss.dependencies.foldl (fun fc dep =>
    match dep with
    | none => fc
    | some d =>
      if d.depType ≠ depBlocks then fc
      else
        let blockerLabels := GetLabelsForIssue issues d.dependsOnID
        let fc := blockerLabels.foldl (fun fc bl =>
          if bl ≠ label then
            { fc with incomingDeps := fc.incomingDeps + 1, seenIn := insertSeen fc.seenIn bl }
          else fc) fc
        iss.labels.foldl (fun fc tl =>
          if tl = label then fc
          else
            { fc with outgoingDeps := fc.outgoingDeps + 1, seenOut := insertSeen fc.seenOut tl })
          fc) fc

/-- The criticality aggregation loop of `ComputeLabelHealthForLabel`. -/
structure CritAccum where
  prSum : ℚ := 0
  bwSum : ℚ := 0
  maxBwLabel : ℚ := 0
  critCount : Nat := 0
  bottleneckCount : Nat := 0

/-- One labeled issue of the criticality loop. -/
def critStep (stats : GraphStats) (a : CritAccum) (iss : Issue) : CritAccum :=
  let bwVal := lookupQ stats.betweenness iss.id
  { prSum := a.prSum + lookupQ stats.pageRank iss.id
    bwSum := a.bwSum + bwVal
    maxBwLabel := if a.maxBwLabel < bwVal then bwVal else a.maxBwLabel
    critCount := if 0 < stats.criticalPathScore iss.id then a.critCount + 1 else a.critCount
    bottleneckCount := if 0 < bwVal then a.bottleneckCount + 1 else a.bottleneckCount }

/-- `ComputeLabelHealthForLabel` from the source, with the centrality snapshot
    passed in (the `stats == nil` branch recomputes the same snapshot through the
    external analyzer, so both Go paths use one snapshot value). -/
def ComputeLabelHealthForLabel (label : String) (issues : List Issue)
    (cfg : LabelHealthConfig) (now : ℚ) (stats : GraphStats) : LabelHealth :=
  let labeled : List Issue := issues.filter (fun iss => decide (label ∈ iss.labels))
  let base := { NewLabelHealth label with
                issues := labeled.map (fun (iss : Issue) => iss.id)
                issueCount := labeled.length }
  if labeled.length = 0 then
    { base with health := 0, healthLevel := HealthLevelCritical }
  else
    let counts := labeled.foldl statusCountsStep (0, 0, 0)
    let velocity := ComputeVelocityMetrics labeled now
    let freshness := ComputeFreshnessMetrics labeled now cfg.staleThresholdDays
    let fc := labeled.foldl (flowCountStep issues label) {}
    let flow : FlowMetrics :=
      { incomingDeps := fc.incomingDeps
        outgoingDeps := fc.outgoingDeps
        incomingLabels := sortStrings fc.seenIn
        outgoingLabels := sortStrings fc.seenOut
        flowScore := clampScore (100 - (fc.incomingDeps : Int) * 5) }
    let maxPR := findMaxQ stats.pageRank
    let maxBW := findMaxQ stats.betweenness
    let agg := labeled.foldl (critStep stats) {}
    let avgPR : ℚ := if 0 < labeled.length then agg.prSum / (labeled.length : ℚ) else 0
    let avgBW : ℚ := if 0 < labeled.length then agg.bwSum / (labeled.length : ℚ) else 0
    let critScore : Int :=
      clampScore ((if 0 < maxPR then goTrunc (avgPR / maxPR * 50) else 0) +
        (if 0 < maxBW then goTrunc (agg.maxBwLabel / maxBW * 50) else 0))
    let health := ComputeCompositeHealth velocity.velocityScore freshness.freshnessScore
      flow.flowScore critScore cfg
    { base with
      closedCount := counts.1
      openCount := counts.2.1
      blocked := counts.2.2
      velocity := velocity
      freshness := freshness
      flow := flow
      criticality :=
        { avgPageRank := avgPR
          avgBetweenness := avgBW
          maxBetweenness := agg.maxBwLabel
          criticalPathCount := agg.critCount
          bottleneckCount := agg.bottleneckCount
          criticalityScore := critScore }
      health := health
      healthLevel := HealthLevelFromScore health }

/-- `LabelSummary` from the source. -/
structure LabelSummary where
  label : String := ""
  issueCount : Nat := 0
  openCount : Nat := 0
  health : Int := 0
  healthLevel : String := ""
  topIssue : String := ""
  needsAttention : Bool := false

/-- `LabelAnalysisResult` from the source (the optional CrossLabelFlow pointer is
    not set by `ComputeAllLabelHealth`). -/
structure LabelAnalysisResult where
  generatedAt : ℚ := 0
  totalLabels : Nat := 0
  healthyCount : Nat := 0
  warningCount : Nat := 0
  criticalCount : Nat := 0
  labels : List LabelHealth := []
  summaries : List LabelSummary := []
  attentionNeeded : List String := []

/-- The accumulation state of the `ComputeAllLabelHealth` label loop. -/
structure AllAccum where
  labels : List LabelHealth := []
  summaries : List LabelSummary := []
  healthy : Nat := 0
  warning : Nat := 0
  critical : Nat := 0
  attention : List String := []

/-- One label of the `ComputeAllLabelHealth` loop: compute health, build the
    summary, then tally the level switch (warning and critical labels also join
    the attention list; the default case of the Go switch changes no counter). -/
def allStep (issues : List Issue) (cfg : LabelHealthConfig) (now : ℚ) (stats : GraphStats)
    (acc : AllAccum) (label : String) : AllAccum :=
  let health := ComputeLabelHealthForLabel label issues cfg now stats
  let summary : LabelSummary :=
    { label := label
      issueCount := health.issueCount
      openCount := health.openCount
      health := health.health
      healthLevel := health.healthLevel
      needsAttention := NeedsAttention health
      topIssue := health.issues.headD "" }
  let acc := { acc with labels := acc.labels ++ [health], summaries := acc.summaries ++ [summary] }
  if health.healthLevel = HealthLevelHealthy then
    { acc with healthy := acc.healthy + 1 }
  else if health.healthLevel = HealthLevelWarning then
    { acc with warning := acc.warning + 1, attention := acc.attention ++ [label] }
  else if health.healthLevel = HealthLevelCritical then
    { acc with critical := acc.critical + 1, attention := acc.attention ++ [label] }
  else acc

/-- The summary sort order of `ComputeAllLabelHealth`: health descending, label
    ascending for ties. -/
def summaryRel (a b : LabelSummary) : Prop :=
  b.health < a.health ∨ (a.health = b.health ∧ strLe a.label b.label = true)

instance : DecidableRel summaryRel := fun a b => by unfold summaryRel; infer_instance

/-- `ComputeAllLabelHealth` from the source, with the shared centrality snapshot
    passed in (Go computes it once through the external analyzer). -/
def ComputeAllLabelHealth (issues : List Issue) (cfg : LabelHealthConfig) (now : ℚ)
    (stats : GraphStats) : LabelAnalysisResult :=
  let ext := ExtractLabels issues
  let sortedLabels := sortStrings ext.labels
  let acc := sortedLabels.foldl (allStep issues cfg now stats) {}
  { generatedAt := now
    totalLabels := ext.labelCount
    healthyCount := acc.healthy
    warningCount := acc.warning
    criticalCount := acc.critical
    labels := acc.labels
    summaries := List.insertionSort summaryRel acc.summaries
    attentionNeeded := acc.attention }


-- ============================================================================
-- Shared lemmas about scores
-- ============================================================================

theorem bonusScore_bounds (dir : String) (s : Int) (h0 : 0 ≤ s) (h1 : s ≤ 100) :
    0 ≤ (if dir = "improving" ∧ s < 100 then clampScore (s + 10) else s) ∧
      (if dir = "improving" ∧ s < 100 then clampScore (s + 10) else s) ≤ 100 := by
  split
  · exact ⟨clampScore_nonneg _, clampScore_le_100 _⟩
  · exact ⟨h0, h1⟩

theorem baseVelScore_bounds (c30 : Nat) :
    0 ≤ (if 0 < c30 then goTrunc (min 100 ((c30 : ℚ) * 10)) else 0) ∧
      (if 0 < c30 then goTrunc (min 100 ((c30 : ℚ) * 10)) else 0) ≤ 100 := by
  split
  · have hnn : (0 : ℚ) ≤ min 100 ((c30 : ℚ) * 10) := le_min (by norm_num) (by positivity)
    exact ⟨goTrunc_nonneg hnn, goTrunc_le_100 (min_le_left _ _)⟩
  · norm_num

theorem velocityScore_bounds (issues : List Issue) (now : ℚ) :
    0 ≤ (ComputeVelocityMetrics issues now).velocityScore ∧
      (ComputeVelocityMetrics issues now).velocityScore ≤ 100 := by
  unfold ComputeVelocityMetrics
  simp only
  exact bonusScore_bounds _ _ (baseVelScore_bounds _).1 (baseVelScore_bounds _).2

theorem freshnessScore_bounds (issues : List Issue) (now : ℚ) (staleDays : Int) :
    0 ≤ (ComputeFreshnessMetrics issues now staleDays).freshnessScore ∧
      (ComputeFreshnessMetrics issues now staleDays).freshnessScore ≤ 100 := by
  unfold ComputeFreshnessMetrics
  exact ⟨clampScore_nonneg _, clampScore_le_100 _⟩

theorem compositeHealth_bounds (v f fl c : Int) (cfg : LabelHealthConfig) :
    0 ≤ ComputeCompositeHealth v f fl c cfg ∧ ComputeCompositeHealth v f fl c cfg ≤ 100 := by
  unfold ComputeCompositeHealth
  exact ⟨clampScore_nonneg _, clampScore_le_100 _⟩

theorem labelHealth_flow_crit_bounds (label : String) (issues : List Issue)
    (cfg : LabelHealthConfig) (now : ℚ) (stats : GraphStats) :
    (0 ≤ (ComputeLabelHealthForLabel label issues cfg now stats).flow.flowScore ∧
      (ComputeLabelHealthForLabel label issues cfg now stats).flow.flowScore ≤ 100) ∧
    (0 ≤ (ComputeLabelHealthForLabel label issues cfg now stats).criticality.criticalityScore ∧
      (ComputeLabelHealthForLabel label issues cfg now stats).criticality.criticalityScore ≤ 100) := by
  unfold ComputeLabelHealthForLabel
  simp only
  split
  · simp [NewLabelHealth]
  · exact ⟨⟨clampScore_nonneg _, clampScore_le_100 _⟩,
      ⟨clampScore_nonneg _, clampScore_le_100 _⟩⟩

-- ============================================================================
-- Claim C4
-- ============================================================================

/-- Claim C4: for every issue collection, reference time, stale threshold and
    configuration (including weight sets that do not sum to 1), every score the
    engine produces lies in [0, 100]: the velocity score of
    `ComputeVelocityMetrics`, the freshness score of `ComputeFreshnessMetrics`,
    the flow and criticality scores as set by `ComputeLabelHealthForLabel`, and
    the composite result of `ComputeCompositeHealth`. -/
theorem scores_clamped_c4 :
    (∀ (issues : List Issue) (now : ℚ),
      0 ≤ (ComputeVelocityMetrics issues now).velocityScore ∧
        (ComputeVelocityMetrics issues now).velocityScore ≤ 100) ∧
    (∀ (issues : List Issue) (now : ℚ) (staleDays : Int),
      0 ≤ (ComputeFreshnessMetrics issues now staleDays).freshnessScore ∧
        (ComputeFreshnessMetrics issues now staleDays).freshnessScore ≤ 100) ∧
    (∀ (label : String) (issues : List Issue) (cfg : LabelHealthConfig) (now : ℚ)
        (stats : GraphStats),
      (0 ≤ (ComputeLabelHealthForLabel label issues cfg now stats).flow.flowScore ∧
        (ComputeLabelHealthForLabel label issues cfg now stats).flow.flowScore ≤ 100) ∧
      (0 ≤ (ComputeLabelHealthForLabel label issues cfg now stats).criticality.criticalityScore ∧
        (ComputeLabelHealthForLabel label issues cfg now
          stats).criticality.criticalityScore ≤ 100)) ∧
    (∀ (v f fl c : Int) (cfg : LabelHealthConfig),
      0 ≤ ComputeCompositeHealth v f fl c cfg ∧ ComputeCompositeHealth v f fl c cfg ≤ 100) :=
  ⟨velocityScore_bounds, freshnessScore_bounds, labelHealth_flow_crit_bounds,
    compositeHealth_bounds⟩

-- ============================================================================
-- Claim C5
-- ============================================================================

/-- Claim C5: under the default configuration (all four weights 0.25),
    `ComputeCompositeHealth(v, v, v, v) = v` for v in {0, 50, 100} and
    `ComputeCompositeHealth(100, 0, 100, 0) = 50`; in general the composite
    equals round(Velocity·Wv + Freshness·Wf + Flow·Wflow + Criticality·Wc)
    clamped to [0, 100], with the caller-supplied weights applied as-is. -/
theorem composite_health_c5 :
    ComputeCompositeHealth 0 0 0 0 DefaultLabelHealthConfig = 0 ∧
    ComputeCompositeHealth 50 50 50 50 DefaultLabelHealthConfig = 50 ∧
    ComputeCompositeHealth 100 100 100 100 DefaultLabelHealthConfig = 100 ∧
    ComputeCompositeHealth 100 0 100 0 DefaultLabelHealthConfig = 50 ∧
    (∀ (v f fl c : Int) (cfg : LabelHealthConfig),
      ComputeCompositeHealth v f fl c cfg =
        clampScore (round ((v : ℚ) * cfg.velocityWeight + (f : ℚ) * cfg.freshnessWeight +
          (fl : ℚ) * cfg.flowWeight + (c : ℚ) * cfg.criticalityWeight))) := by
  have hgen : ∀ (v f fl c : Int) (cfg : LabelHealthConfig),
      ComputeCompositeHealth v f fl c cfg =
        clampScore (round ((v : ℚ) * cfg.velocityWeight + (f : ℚ) * cfg.freshnessWeight +
          (fl : ℚ) * cfg.flowWeight + (c : ℚ) * cfg.criticalityWeight)) := by
    intro v f fl c cfg
    unfold ComputeCompositeHealth
    rw [round_eq, clampScore_goTrunc_eq_clampScore_floor]
  refine ⟨?_, ?_, ?_, ?_, hgen⟩
  · rw [hgen]; simp only [DefaultLabelHealthConfig]; norm_num [round_eq, clampScore]
  · rw [hgen]; simp only [DefaultLabelHealthConfig]; norm_num [round_eq, clampScore]
  · rw [hgen]; simp only [DefaultLabelHealthConfig]; norm_num [round_eq, clampScore]
  · rw [hgen]; simp only [DefaultLabelHealthConfig]; norm_num [round_eq, clampScore]

-- ============================================================================
-- Claim C1
-- ============================================================================

/-- The five-issue example of the cross-label flow test: A(api), B(ui, blocked
    by A), C(api+core), D(ui+core, blocked by C), E(api, closed, blocked by A). -/
def exFlowIssues : List Issue :=
  [ { id := "A", labels := ["api"], status := statusOpen },
    { id := "B", labels := ["ui"], status := statusOpen,
      dependencies := [some { dependsOnID := "A", depType := depBlocks }] },
    { id := "C", labels := ["api", "core"], status := statusOpen },
    { id := "D", labels := ["ui", "core"], status := statusOpen,
      dependencies := [some { dependsOnID := "C", depType := depBlocks }] },
    { id := "E", labels := ["api"], status := statusClosed,
      dependencies := [some { dependsOnID := "A", depType := depBlocks }] } ]

/-- Claim C1: on the five-issue example, `ComputeCrossLabelFlow` under the
    default configuration (closed issues excluded from flow) returns
    TotalCrossLabelDeps = 4 and FlowMatrix[api][ui] = 2, and "api" is a member
    of BottleneckLabels. -/
theorem cross_label_flow_example_c1 :
    (ComputeCrossLabelFlow exFlowIssues DefaultLabelHealthConfig).totalCrossLabelDeps = 4 ∧
    ((ComputeCrossLabelFlow exFlowIssues DefaultLabelHealthConfig).flowMatrix.getD
        ((findIdx "api" (ComputeCrossLabelFlow exFlowIssues
          DefaultLabelHealthConfig).labels).getD 0) []).getD
        ((findIdx "ui" (ComputeCrossLabelFlow exFlowIssues
          DefaultLabelHealthConfig).labels).getD 0) 0 = 2 ∧
    "api" ∈ (ComputeCrossLabelFlow exFlowIssues DefaultLabelHealthConfig).bottleneckLabels := by
  refine ⟨by decide, by decide, by decide⟩

-- ============================================================================
-- Claims C2 and C3: empty labels and self-pairs in the catalog / co-occurrence
-- ============================================================================

theorem statsInsert_keys_ne {stats : List (String × LabelStats)} {l : String} (iss : Issue)
    (h : ∀ p ∈ stats, p.1 ≠ "") (hl : l ≠ "") :
    ∀ p ∈ statsInsert stats l iss, p.1 ≠ "" := by
  induction stats with
  | nil =>
    intro p hp
    simp only [statsInsert, List.mem_singleton] at hp
    rw [hp]
    exact hl
  | cons q rest ih =>
    intro p hp
    obtain ⟨k, s⟩ := q
    simp only [statsInsert] at hp
    split at hp
    · rcases List.mem_cons.mp hp with h1 | h1
      · rw [h1]; exact h (k, s) (List.mem_cons_self _ _)
      · exact h p (List.mem_cons_of_mem _ h1)
    · rcases List.mem_cons.mp hp with h1 | h1
      · rw [h1]; exact h (k, s) (List.mem_cons_self _ _)
      · exact ih (fun q hq => h q (List.mem_cons_of_mem _ hq)) p h1

theorem extract_label_fold_keys_ne (labels : List String) (iss : Issue)
    (acc : LabelExtractionResult) (h : ∀ p ∈ acc.stats, p.1 ≠ "") :
    ∀ p ∈ (labels.foldl (fun acc label =>
        if label = "" then acc
        else { acc with stats := statsInsert acc.stats label iss }) acc).stats, p.1 ≠ "" := by
  induction labels generalizing acc with
  | nil => exact h
  | cons x rest ih =>
    simp only [List.foldl_cons]
    by_cases hx : x = ""
    · rw [if_pos hx]; exact ih acc h
    · rw [if_neg hx]
      exact ih _ (statsInsert_keys_ne iss h hx)

theorem extractStep_keys_ne (acc : LabelExtractionResult) (iss : Issue)
    (h : ∀ p ∈ acc.stats, p.1 ≠ "") : ∀ p ∈ (extractStep acc iss).stats, p.1 ≠ "" := by
  unfold extractStep
  simp only
  apply extract_label_fold_keys_ne
  split <;> exact h

theorem extract_fold_keys_ne (issues : List Issue) (acc : LabelExtractionResult)
    (h : ∀ p ∈ acc.stats, p.1 ≠ "") :
    ∀ p ∈ (issues.foldl extractStep acc).stats, p.1 ≠ "" := by
  induction issues generalizing acc with
  | nil => exact h
  | cons iss rest ih =>
    simp only [List.foldl_cons]
    exact ih _ (extractStep_keys_ne acc iss h)

theorem extractLabels_stats_keys_ne (issues : List Issue) :
    ∀ p ∈ (ExtractLabels issues).stats, p.1 ≠ "" := by
  unfold ExtractLabels
  simp only
  exact extract_fold_keys_ne issues _ (by intro p hp; simp at hp)

theorem mem_sortStrings {x : String} {l : List String} :
    x ∈ sortStrings l ↔ x ∈ l :=
  (List.perm_insertionSort labelLe l).mem_iff

/-- Claim C2 (amended): `ExtractLabels` never emits the empty-string label — it
    is absent from `Labels`, absent as a key of `Stats`, and absent from
    `TopLabels` — but `GetLabelCooccurrence` performs no such filtering (see the
    counterexample). -/
theorem extract_labels_no_empty_c2 (issues : List Issue) :
    "" ∉ (ExtractLabels issues).labels ∧
    lookupStats (ExtractLabels issues).stats "" = none ∧
    "" ∉ (ExtractLabels issues).topLabels := by
  have hkeys := extractLabels_stats_keys_ne issues
  refine ⟨?_, ?_, ?_⟩
  · intro hmem
    unfold ExtractLabels at hmem hkeys
    simp only at hmem hkeys
    rw [mem_sortStrings] at hmem
    obtain ⟨p, hp, hp2⟩ := List.mem_map.mp hmem
    exact hkeys p hp hp2
  · unfold lookupStats
    rw [List.find?_eq_none.mpr]
    · rfl
    · intro p hp
      simpa using hkeys p hp
  · intro hmem
    unfold ExtractLabels at hmem hkeys
    simp only at hmem hkeys
    unfold sortLabelsByCount at hmem
    obtain ⟨p, hp, hp2⟩ := List.mem_map.mp hmem
    have hp3 := (List.perm_insertionSort countRel _).mem_iff.mp hp
    obtain ⟨q, hq, hq2⟩ := List.mem_map.mp hp3
    apply hkeys q hq
    have : p.1 = q.1 := by rw [← hq2]
    rw [← this, hp2]

/-- An issue carrying the empty-string label next to "api": the input of the C2
    counterexample. -/
def exEmptyLabelIssues : List Issue := [{ id := "x", labels := ["", "api"] }]

/-- Claim C2 counterexample: `GetLabelCooccurrence` does not filter empty-string
    labels — on an issue labelled ["", "api"] the empty label appears as an
    outer key (count 1 against "api") and as an inner key, refuting the claim
    that it never appears in co-occurrence output. -/
theorem cooccurrence_empty_label_c2_counterexample :
    GetLabelCooccurrence exEmptyLabelIssues "" "api" = 1 ∧
    GetLabelCooccurrence exEmptyLabelIssues "api" "" = 1 := by
  exact ⟨by decide, by decide⟩

/-- An issue carrying the same label twice: the input of the C3 counterexample. -/
def exDupLabelIssues : List Issue := [{ id := "x", labels := ["api", "api"] }]

/-- Claim C3 counterexample: `GetLabelCooccurrence` has no self-pair guard — an
    issue labelled ["api", "api"] produces the diagonal entry
    cooc["api"]["api"] = 2 (both directional increments land on the same cell),
    refuting the claim that `cooc[l][l]` is always absent. -/
theorem cooccurrence_self_pair_c3_counterexample :
    GetLabelCooccurrence exDupLabelIssues "api" "api" = 2 := by
  decide

theorem coocBump_diag (m : String → String → Nat) {a b : String} (hab : a ≠ b) (l : String) :
    coocBump m a b l l = m l l := by
  unfold coocBump
  rw [if_neg]
  intro ⟨h1, h2⟩
  exact hab (h1 ▸ h2 ▸ rfl)

theorem coocPairStep_diag (m : String → String → Nat) {x y : String} (hxy : x ≠ y)
    (l : String) : coocPairStep m x y l l = m l l := by
  unfold coocPairStep
  by_cases hc : strLt y x = true
  · rw [if_pos hc]
    show coocBump (coocBump m y x) x y l l = m l l
    rw [coocBump_diag _ hxy, coocBump_diag _ (Ne.symm hxy)]
  · rw [if_neg hc]
    show coocBump (coocBump m x y) y x l l = m l l
    rw [coocBump_diag _ (Ne.symm hxy), coocBump_diag _ hxy]

theorem coocInner_diag (rest : List String) (m : String → String → Nat) (x : String)
    (h : ∀ y ∈ rest, x ≠ y) (l : String) :
    (rest.foldl (fun m y => coocPairStep m x y) m) l l = m l l := by
  induction rest generalizing m with
  | nil => rfl
  | cons y ys ih =>
    simp only [List.foldl_cons]
    rw [ih _ (fun z hz => h z (List.mem_cons_of_mem _ hz)),
      coocPairStep_diag m (h y (List.mem_cons_self _ _)) l]

theorem coocIssue_diag (labels : List String) (m : String → String → Nat)
    (h : labels.Nodup) (l : String) : coocIssue labels m l l = m l l := by
  induction labels generalizing m with
  | nil => rfl
  | cons x rest ih =>
    rcases List.nodup_cons.mp h with ⟨hx, hrest⟩
    unfold coocIssue
    rw [ih _ hrest, coocInner_diag rest m x (fun y hy hxy => hx (hxy ▸ hy)) l]

theorem cooc_fold_diag (issues : List Issue) (m : String → String → Nat)
    (h : ∀ iss ∈ issues, iss.labels.Nodup) (l : String) :
    (issues.foldl (fun m iss => coocIssue iss.labels m) m) l l = m l l := by
  induction issues generalizing m with
  | nil => rfl
  | cons iss rest ih =>
    simp only [List.foldl_cons]
    rw [ih _ (fun j hj => h j (List.mem_cons_of_mem _ hj)),
      coocIssue_diag _ m (h iss (List.mem_cons_self _ _)) l]

/-- Claim C3 (amended): when no issue lists the same label twice, the
    co-occurrence map never pairs a label with itself — `cooc[l][l]` is absent
    (count 0) for every label l; an issue that does repeat a label produces a
    diagonal entry of 2 per duplicated pair (see the counterexample). -/
theorem cooc_no_self_pair_c3 (issues : List Issue)
    (h : ∀ iss ∈ issues, iss.labels.Nodup) (l : String) :
    GetLabelCooccurrence issues l l = 0 := by
  unfold GetLabelCooccurrence
  exact cooc_fold_diag issues _ h l

/-- Witness for the amended C3 theorem at a concrete duplicate-free input. -/
theorem cooc_no_self_pair_c3_witness :
    (∀ iss ∈ ([{ id := "x", labels := ["api", "ui"] }] : List Issue), iss.labels.Nodup) ∧
    GetLabelCooccurrence [{ id := "x", labels := ["api", "ui"] }] "api" "api" = 0 :=
  ⟨by decide, cooc_no_self_pair_c3 _ (by decide) "api"⟩

-- ============================================================================
-- Claim C7: freshness score
-- ============================================================================

theorem clampScore_goTrunc_max (x : ℚ) :
    clampScore (goTrunc (max 0 x)) = min 100 (max 0 ⌊x⌋) := by
  by_cases h : 0 ≤ x
  · rw [max_eq_right h, goTrunc_eq_floor_of_nonneg h, clampScore_eq_min_max]
  · have hx : x < 0 := lt_of_not_ge h
    rw [max_eq_left (le_of_lt hx)]
    have hfloor : ⌊x⌋ < 0 := Int.floor_lt.mpr (by exact_mod_cast hx)
    rw [max_eq_left (le_of_lt hfloor)]
    show clampScore (goTrunc 0) = min 100 0
    norm_num [goTrunc, clampScore]

/-- A single issue last updated one hour before the reference instant 0. -/
def exFreshIssue1h : List Issue := [{ id := "1", updatedAt := -1/24, status := statusOpen }]

/-- A single issue last updated sixty days before the reference instant 0. -/
def exFreshIssue60d : List Issue := [{ id := "1", updatedAt := -60, status := statusOpen }]

/-- Claim C7 counterexample: the claimed identity
    FreshnessScore = clamp(100 − (avg/(2t))·100, 0, 100) fails as stated, because
    the code truncates to int before clamping: for a single issue updated 1 hour
    before now with t = 14 the score is 99 while the claimed right-hand side is
    16775/168 ≈ 99.85. -/
theorem freshness_formula_c7_counterexample :
    ¬ (((ComputeFreshnessMetrics exFreshIssue1h 0 14).freshnessScore : ℚ) =
      min 100 (max 0 ((100 : ℚ) -
        (ComputeFreshnessMetrics exFreshIssue1h 0 14).avgDaysSinceUpdate /
        (2 * ((ComputeFreshnessMetrics exFreshIssue1h 0 14).staleThresholdDays : ℚ)) * 100))) := by
  norm_num [ComputeFreshnessMetrics, exFreshIssue1h, freshStep, statusOpen, statusClosed,
    DefaultStaleThresholdDays, goTrunc, clampScore]

/-- Claim C7 (amended): with the effective threshold t (a non-positive threshold
    argument falls back to the 14-day default),
    FreshnessScore = clamp(⌊100 − (avgDaysSinceUpdate/(2·t))·100⌋, 0, 100) — the
    claimed linear decay with the code's int truncation added; in particular a
    single issue updated 1 hour before now with t = 14 scores ≥ 90, and one
    updated 60 days before now with t = 14 scores 0. -/
theorem freshness_score_c7 :
    (∀ (issues : List Issue) (now : ℚ) (staleDays : Int),
      ((ComputeFreshnessMetrics issues now staleDays).freshnessScore : Int) =
        min 100 (max 0 ⌊(100 : ℚ) -
          (ComputeFreshnessMetrics issues now staleDays).avgDaysSinceUpdate /
          (2 * ((ComputeFreshnessMetrics issues now staleDays).staleThresholdDays : ℚ)) * 100⌋)) ∧
    (∀ (issues : List Issue) (now : ℚ) (staleDays : Int),
      (ComputeFreshnessMetrics issues now staleDays).staleThresholdDays =
        if staleDays ≤ 0 then 14 else staleDays) ∧
    90 ≤ (ComputeFreshnessMetrics exFreshIssue1h 0 14).freshnessScore ∧
    (ComputeFreshnessMetrics exFreshIssue60d 0 14).freshnessScore = 0 := by
  refine ⟨?_, ?_, ?_, ?_⟩
  · intro issues now staleDays
    unfold ComputeFreshnessMetrics
    simp only
    rw [mul_comm (2 : ℚ)]
    exact clampScore_goTrunc_max _
  · intro issues now staleDays
    simp [ComputeFreshnessMetrics, DefaultStaleThresholdDays]
  · have : (ComputeFreshnessMetrics exFreshIssue1h 0 14).freshnessScore = 99 := by
      norm_num [ComputeFreshnessMetrics, exFreshIssue1h, freshStep, statusOpen, statusClosed,
        DefaultStaleThresholdDays, goTrunc, clampScore]
    rw [this]
    norm_num
  · norm_num [ComputeFreshnessMetrics, exFreshIssue60d, freshStep, statusOpen, statusClosed,
      DefaultStaleThresholdDays, goTrunc, clampScore]

-- ============================================================================
-- Claim C6: velocity trend
-- ============================================================================

/-- An issue counts for the trailing week when its ClosedAt is strictly after
    now − 7 (the code's else-if makes this exactly the current-week bucket,
    since the previous-week condition requires ClosedAt before now − 7). -/
def closedInCurrentWeek (now : ℚ) (iss : Issue) : Bool :=
  match iss.closedAt with
  | some c => decide (now - 7 < c)
  | none => false

/-- An issue counts for the prior week when its ClosedAt lies strictly between
    now − 14 and now − 7. -/
def closedInPrevWeek (now : ℚ) (iss : Issue) : Bool :=
  match iss.closedAt with
  | some c => decide (now - 14 < c ∧ c < now - 7)
  | none => false

theorem velocityStep_currentWeek (now : ℚ) (acc : VelocityAccum) (iss : Issue) :
    (velocityStep now acc iss).currentWeek =
      acc.currentWeek + (if closedInCurrentWeek now iss then 1 else 0) := by
  unfold velocityStep closedInCurrentWeek
  cases hclosed : iss.closedAt with
  | none => simp
  | some c =>
    simp only [decide_eq_true_eq]
    by_cases h7 : now - 7 < c
    · have hprev : ¬ (now - 14 < c ∧ c < now - 7) := by
        intro hp
        exact absurd h7 (not_lt.mpr (le_of_lt hp.2))
      simp only [if_pos h7, if_neg hprev]
      split_ifs <;> simp
    · simp only [if_neg h7]
      split_ifs <;> simp

theorem velocityStep_prevWeek (now : ℚ) (acc : VelocityAccum) (iss : Issue) :
    (velocityStep now acc iss).prevWeek =
      acc.prevWeek + (if closedInPrevWeek now iss then 1 else 0) := by
  unfold velocityStep closedInPrevWeek
  cases hclosed : iss.closedAt with
  | none => simp
  | some c =>
    simp only [decide_eq_true_eq]
    by_cases hprev : now - 14 < c ∧ c < now - 7
    · simp only [if_pos hprev]
      split_ifs <;> simp
    · simp only [if_neg hprev]
      split_ifs <;> simp

theorem velocity_fold_currentWeek (issues : List Issue) (now : ℚ) (acc : VelocityAccum) :
    (issues.foldl (velocityStep now) acc).currentWeek =
      acc.currentWeek + issues.countP (closedInCurrentWeek now) := by
  induction issues generalizing acc with
  | nil => simp
  | cons iss rest ih =>
    simp only [List.foldl_cons, List.countP_cons]
    rw [ih (velocityStep now acc iss), velocityStep_currentWeek]
    by_cases h : closedInCurrentWeek now iss <;> simp [h] <;> omega

theorem velocity_fold_prevWeek (issues : List Issue) (now : ℚ) (acc : VelocityAccum) :
    (issues.foldl (velocityStep now) acc).prevWeek =
      acc.prevWeek + issues.countP (closedInPrevWeek now) := by
  induction issues generalizing acc with
  | nil => simp
  | cons iss rest ih =>
    simp only [List.foldl_cons, List.countP_cons]
    rw [ih (velocityStep now acc iss), velocityStep_prevWeek]
    by_cases h : closedInPrevWeek now iss <;> simp [h] <;> omega

/-- Five closures in the trailing week and two in the prior week. -/
def exVelImproving : List Issue :=
  [ { id := "c1", createdAt := -30, closedAt := some (-1), status := statusClosed },
    { id := "c2", createdAt := -30, closedAt := some (-2), status := statusClosed },
    { id := "c3", createdAt := -30, closedAt := some (-3), status := statusClosed },
    { id := "c4", createdAt := -30, closedAt := some (-4), status := statusClosed },
    { id := "c5", createdAt := -30, closedAt := some (-5), status := statusClosed },
    { id := "p1", createdAt := -30, closedAt := some (-8), status := statusClosed },
    { id := "p2", createdAt := -30, closedAt := some (-9), status := statusClosed } ]

/-- One closure in the trailing week and five in the prior week. -/
def exVelDeclining : List Issue :=
  [ { id := "c1", createdAt := -30, closedAt := some (-2), status := statusClosed },
    { id := "p1", createdAt := -30, closedAt := some (-8), status := statusClosed },
    { id := "p2", createdAt := -30, closedAt := some (-9), status := statusClosed },
    { id := "p3", createdAt := -30, closedAt := some (-10), status := statusClosed },
    { id := "p4", createdAt := -30, closedAt := some (-11), status := statusClosed },
    { id := "p5", createdAt := -30, closedAt := some (-12), status := statusClosed } ]

/-- Claim C6: with current = closures strictly after now − 7 and previous =
    closures strictly between now − 14 and now − 7, TrendPercent is
    (current − previous)/previous · 100 when previous > 0, 100 when previous = 0
    and current > 0, and 0 otherwise; the direction is "improving" iff
    TrendPercent > 10 and "declining" iff TrendPercent < −10, otherwise
    "stable". In particular 5 current-week vs. 2 prior-week closures gives
    "improving" with positive TrendPercent, and 1 vs. 5 gives "declining" with
    negative TrendPercent. -/
theorem velocity_trend_c6 :
    (∀ (issues : List Issue) (now : ℚ),
      (ComputeVelocityMetrics issues now).trendPercent =
        (if 0 < issues.countP (closedInPrevWeek now) then
          ((issues.countP (closedInCurrentWeek now) : ℚ) -
            (issues.countP (closedInPrevWeek now) : ℚ)) /
            (issues.countP (closedInPrevWeek now) : ℚ) * 100
        else if 0 < issues.countP (closedInCurrentWeek now) then 100 else 0) ∧
      ((ComputeVelocityMetrics issues now).trendDirection = "improving" ↔
        10 < (ComputeVelocityMetrics issues now).trendPercent) ∧
      ((ComputeVelocityMetrics issues now).trendDirection = "declining" ↔
        (ComputeVelocityMetrics issues now).trendPercent < -10) ∧
      ((ComputeVelocityMetrics issues now).trendDirection = "stable" ↔
        (¬ 10 < (ComputeVelocityMetrics issues now).trendPercent ∧
          ¬ (ComputeVelocityMetrics issues now).trendPercent < -10))) ∧
    ((ComputeVelocityMetrics exVelImproving 0).trendDirection = "improving" ∧
      0 < (ComputeVelocityMetrics exVelImproving 0).trendPercent) ∧
    ((ComputeVelocityMetrics exVelDeclining 0).trendDirection = "declining" ∧
      (ComputeVelocityMetrics exVelDeclining 0).trendPercent < 0) := by
  refine ⟨?_, ?_, ?_⟩
  · intro issues now
    have hid : ("improving" : String) ≠ "declining" := by decide
    have his : ("improving" : String) ≠ "stable" := by decide
    have hds : ("declining" : String) ≠ "stable" := by decide
    unfold ComputeVelocityMetrics
    simp only
    rw [velocity_fold_currentWeek, velocity_fold_prevWeek]
    simp only [Nat.zero_add]
    by_cases hprev : 0 < issues.countP (closedInPrevWeek now)
    · simp only [if_pos hprev]
      refine ⟨trivial, ?_, ?_, ?_⟩
      · split_ifs with h1 h2 <;> simp_all
      · split_ifs with h1 h2 <;> simp_all
        linarith
      · split_ifs with h1 h2 <;> simp_all
    · simp only [if_neg hprev]
      by_cases hcur : 0 < issues.countP (closedInCurrentWeek now)
      · simp only [if_pos hcur]
        refine ⟨trivial, ?_, ?_, ?_⟩ <;> simp [hid, his] <;> norm_num
      · simp only [if_neg hcur]
        refine ⟨trivial, ?_, ?_, ?_⟩ <;> simp [hds.symm, his.symm]
  · norm_num [ComputeVelocityMetrics, exVelImproving, velocityStep, goTrunc, clampScore]
  · norm_num [ComputeVelocityMetrics, exVelDeclining, velocityStep, goTrunc, clampScore]

theorem statusCountsStep_closed (c : Nat × Nat × Nat) (iss : Issue) :
    (statusCountsStep c iss).1 =
      c.1 + (if iss.status = statusClosed then 1 else 0) := by
  unfold statusCountsStep
  split_ifs <;> simp_all

theorem statusCountsStep_open (c : Nat × Nat × Nat) (iss : Issue) :
    (statusCountsStep c iss).2.1 =
      c.2.1 + (if iss.status ≠ statusClosed ∧ iss.status ≠ statusBlocked then 1 else 0) := by
  unfold statusCountsStep
  have hib : statusInProgress ≠ statusClosed := by decide
  have hib2 : statusInProgress ≠ statusBlocked := by decide
  split_ifs <;> simp_all

theorem statusCountsStep_blocked (c : Nat × Nat × Nat) (iss : Issue) :
    (statusCountsStep c iss).2.2 =
      c.2.2 + (if iss.status = statusBlocked then 1 else 0) := by
  unfold statusCountsStep
  have h1 : statusBlocked ≠ statusClosed := by decide
  have h2 : statusBlocked ≠ statusInProgress := by decide
  split_ifs <;> simp_all

theorem statusCounts_fold (ls : List Issue) (c : Nat × Nat × Nat) :
    (ls.foldl statusCountsStep c).1 =
      c.1 + ls.countP (fun iss => decide (iss.status = statusClosed)) ∧
    (ls.foldl statusCountsStep c).2.1 =
      c.2.1 + ls.countP (fun iss => decide (iss.status ≠ statusClosed ∧ iss.status ≠ statusBlocked)) ∧
    (ls.foldl statusCountsStep c).2.2 =
      c.2.2 + ls.countP (fun iss => decide (iss.status = statusBlocked)) := by
  induction ls generalizing c with
  | nil => simp
  | cons iss rest ih =>
    simp only [List.foldl_cons, List.countP_cons]
    rcases ih (statusCountsStep c iss) with ⟨h1, h2, h3⟩
    refine ⟨?_, ?_, ?_⟩
    · rw [h1, statusCountsStep_closed]
      by_cases h : iss.status = statusClosed <;> simp [h] <;> omega
    · rw [h2, statusCountsStep_open]
      by_cases h : iss.status ≠ statusClosed ∧ iss.status ≠ statusBlocked <;> simp [h] <;> omega
    · rw [h3, statusCountsStep_blocked]
      by_cases h : iss.status = statusBlocked <;> simp [h] <;> omega

theorem countP_status_partition (ls : List Issue) :
    ls.countP (fun iss => decide (iss.status ≠ statusClosed ∧ iss.status ≠ statusBlocked)) +
      ls.countP (fun iss => decide (iss.status = statusClosed)) +
      ls.countP (fun iss => decide (iss.status = statusBlocked)) = ls.length := by
  induction ls with
  | nil => rfl
  | cons iss rest ih =>
    simp only [List.countP_cons, List.length_cons]
    have h1 : statusBlocked ≠ statusClosed := by decide
    by_cases hc : iss.status = statusClosed
    · simp [hc, h1, h1.symm] at ih ⊢
      omega
    · by_cases hb : iss.status = statusBlocked
      · simp [hc, hb, h1] at ih ⊢
        omega
      · simp [hc, hb] at ih ⊢
        omega

/-- Claim C10: for every label with at least one member issue, the LabelHealth
    of `ComputeLabelHealthForLabel` satisfies
    OpenCount + ClosedCount + Blocked = IssueCount, each member issue
    incrementing exactly one counter: closed issues count in ClosedCount,
    blocked in Blocked, and in_progress, open and unknown statuses in
    OpenCount. -/
theorem status_counts_c10 (label : String) (issues : List Issue) (cfg : LabelHealthConfig)
    (now : ℚ) (stats : GraphStats)
    (hpos : 0 < (ComputeLabelHealthForLabel label issues cfg now stats).issueCount) :
    (ComputeLabelHealthForLabel label issues cfg now stats).closedCount =
      (issues.filter (fun iss => decide (label ∈ iss.labels))).countP
        (fun iss => decide (iss.status = statusClosed)) ∧
    (ComputeLabelHealthForLabel label issues cfg now stats).blocked =
      (issues.filter (fun iss => decide (label ∈ iss.labels))).countP
        (fun iss => decide (iss.status = statusBlocked)) ∧
    (ComputeLabelHealthForLabel label issues cfg now stats).openCount =
      (issues.filter (fun iss => decide (label ∈ iss.labels))).countP
        (fun iss => decide (iss.status ≠ statusClosed ∧ iss.status ≠ statusBlocked)) ∧
    (ComputeLabelHealthForLabel label issues cfg now stats).openCount +
      (ComputeLabelHealthForLabel label issues cfg now stats).closedCount +
      (ComputeLabelHealthForLabel label issues cfg now stats).blocked =
      (ComputeLabelHealthForLabel label issues cfg now stats).issueCount := by
  by_cases hlen : (issues.filter (fun iss => decide (label ∈ iss.labels))).length = 0
  · exfalso
    unfold ComputeLabelHealthForLabel at hpos
    simp only [if_pos hlen] at hpos
    simp [hlen] at hpos
  · rcases statusCounts_fold (issues.filter (fun iss => decide (label ∈ iss.labels))) (0, 0, 0)
      with ⟨h1, h2, h3⟩
    have e1 : (ComputeLabelHealthForLabel label issues cfg now stats).closedCount =
        (issues.filter (fun iss => decide (label ∈ iss.labels))).countP
          (fun iss => decide (iss.status = statusClosed)) := by
      unfold ComputeLabelHealthForLabel
      simp only [if_neg hlen]
      simpa using h1
    have e2 : (ComputeLabelHealthForLabel label issues cfg now stats).blocked =
        (issues.filter (fun iss => decide (label ∈ iss.labels))).countP
          (fun iss => decide (iss.status = statusBlocked)) := by
      unfold ComputeLabelHealthForLabel
      simp only [if_neg hlen]
      simpa using h3
    have e3 : (ComputeLabelHealthForLabel label issues cfg now stats).openCount =
        (issues.filter (fun iss => decide (label ∈ iss.labels))).countP
          (fun iss => decide (iss.status ≠ statusClosed ∧ iss.status ≠ statusBlocked)) := by
      unfold ComputeLabelHealthForLabel
      simp only [if_neg hlen]
      simpa using h2
    have e4 : (ComputeLabelHealthForLabel label issues cfg now stats).issueCount =
        (issues.filter (fun iss => decide (label ∈ iss.labels))).length := by
      unfold ComputeLabelHealthForLabel
      simp only [if_neg hlen]
    have hpart := countP_status_partition (issues.filter (fun iss => decide (label ∈ iss.labels)))
    refine ⟨e1, e2, e3, ?_⟩
    rw [e1, e2, e3, e4]
    omega

/-- A single open issue labelled "api": the witness input for C10. -/
def exSingleApiIssue : List Issue := [{ id := "x", labels := ["api"], status := statusOpen }]

/-- Witness for C10 at a single-issue input with one "api"-labelled open issue. -/
theorem status_counts_c10_witness :
    0 < (ComputeLabelHealthForLabel "api" exSingleApiIssue
      DefaultLabelHealthConfig 0 {}).issueCount ∧
    ((ComputeLabelHealthForLabel "api" exSingleApiIssue
        DefaultLabelHealthConfig 0 {}).openCount +
      (ComputeLabelHealthForLabel "api" exSingleApiIssue
        DefaultLabelHealthConfig 0 {}).closedCount +
      (ComputeLabelHealthForLabel "api" exSingleApiIssue
        DefaultLabelHealthConfig 0 {}).blocked =
      (ComputeLabelHealthForLabel "api" exSingleApiIssue
        DefaultLabelHealthConfig 0 {}).issueCount) :=
  ⟨by decide,
    (status_counts_c10 "api" exSingleApiIssue DefaultLabelHealthConfig 0 {} (by decide)).2.2.2⟩

-- ============================================================================
-- Claim C8: output ordering of ComputeCrossLabelFlow
-- ============================================================================

instance : IsTrans LabelDependency depSortRel := by
  constructor
  intro a b c h1 h2
  rcases h1 with f1 | ⟨e1, t1 | ⟨te1, n1⟩⟩ <;> rcases h2 with f2 | ⟨e2, h2i⟩
  · exact Or.inl (strLt_trans f1 f2)
  · exact Or.inl (e2 ▸ f1)
  · exact Or.inl (e1 ▸ f2)
  · rcases h2i with t2 | ⟨te2, n2⟩
    · exact Or.inr ⟨e1.trans e2, Or.inl (strLt_trans t1 t2)⟩
    · exact Or.inr ⟨e1.trans e2, Or.inl (te2 ▸ t1)⟩
  · exact Or.inl (e1 ▸ f2)
  · rcases h2i with t2 | ⟨te2, n2⟩
    · exact Or.inr ⟨e1.trans e2, Or.inl (te1 ▸ t2)⟩
    · exact Or.inr ⟨e1.trans e2, Or.inr ⟨te1.trans te2, le_trans n2 n1⟩⟩

instance : IsTotal LabelDependency depSortRel := by
  constructor
  intro a b
  rcases strLt_trichotomy a.fromLabel b.fromLabel with f | e | f
  · exact Or.inl (Or.inl f)
  · rcases strLt_trichotomy a.toLabel b.toLabel with t | te | t
    · exact Or.inl (Or.inr ⟨e, Or.inl t⟩)
    · rcases le_total b.issueCount a.issueCount with n | n
      · exact Or.inl (Or.inr ⟨e, Or.inr ⟨te, n⟩⟩)
      · exact Or.inr (Or.inr ⟨e.symm, Or.inr ⟨te.symm, n⟩⟩)
    · exact Or.inr (Or.inr ⟨e.symm, Or.inl t⟩)
  · exact Or.inr (Or.inl f)

theorem sortStrings_sorted (l : List String) : (sortStrings l).Sorted labelLe :=
  List.sorted_insertionSort labelLe l

/-- Claim C8: in every CrossLabelFlow returned by `ComputeCrossLabelFlow`, the
    Labels list and the BottleneckLabels list are lexicographically sorted, and
    the Dependencies list is sorted by FromLabel ascending, then ToLabel
    ascending, then IssueCount descending for ties — for every issue collection
    and configuration. -/
theorem cross_label_flow_sorted_c8 (issues : List Issue) (cfg : LabelHealthConfig) :
    (ComputeCrossLabelFlow issues cfg).labels.Sorted labelLe ∧
    (ComputeCrossLabelFlow issues cfg).bottleneckLabels.Sorted labelLe ∧
    (ComputeCrossLabelFlow issues cfg).dependencies.Sorted depSortRel := by
  unfold ComputeCrossLabelFlow
  simp only
  exact ⟨sortStrings_sorted _, sortStrings_sorted _, List.sorted_insertionSort _ _⟩

-- ============================================================================
-- Claim C9: orchestrator tallies and attention list
-- ============================================================================

theorem labelHealth_label_eq (label : String) (issues : List Issue) (cfg : LabelHealthConfig)
    (now : ℚ) (stats : GraphStats) :
    (ComputeLabelHealthForLabel label issues cfg now stats).label = label := by
  unfold ComputeLabelHealthForLabel
  simp only
  split <;> simp [NewLabelHealth]

theorem labelHealth_level_cases (label : String) (issues : List Issue) (cfg : LabelHealthConfig)
    (now : ℚ) (stats : GraphStats) :
    (ComputeLabelHealthForLabel label issues cfg now stats).healthLevel = HealthLevelHealthy ∨
    (ComputeLabelHealthForLabel label issues cfg now stats).healthLevel = HealthLevelWarning ∨
    (ComputeLabelHealthForLabel label issues cfg now stats).healthLevel = HealthLevelCritical := by
  unfold ComputeLabelHealthForLabel
  simp only
  split
  · right; right; simp
  · unfold HealthLevelFromScore
    split_ifs <;> simp

/-- The attention predicate of the orchestrator: a label joins AttentionNeeded
    when its computed health level is warning or critical. -/
def attnP (issues : List Issue) (cfg : LabelHealthConfig) (now : ℚ) (stats : GraphStats)
    (label : String) : Bool :=
  decide ((ComputeLabelHealthForLabel label issues cfg now stats).healthLevel =
      HealthLevelWarning ∨
    (ComputeLabelHealthForLabel label issues cfg now stats).healthLevel = HealthLevelCritical)

theorem allStep_cases (issues : List Issue) (cfg : LabelHealthConfig) (now : ℚ)
    (stats : GraphStats) (acc : AllAccum) (label : String) :
    (allStep issues cfg now stats acc label).healthy +
      (allStep issues cfg now stats acc label).warning +
      (allStep issues cfg now stats acc label).critical =
      acc.healthy + acc.warning + acc.critical + 1 ∧
    (allStep issues cfg now stats acc label).labels =
      acc.labels ++ [ComputeLabelHealthForLabel label issues cfg now stats] ∧
    (allStep issues cfg now stats acc label).attention =
      acc.attention ++ (if attnP issues cfg now stats label then [label] else []) := by
  have hwh : HealthLevelWarning ≠ HealthLevelHealthy := by decide
  have hch : HealthLevelCritical ≠ HealthLevelHealthy := by decide
  have hcw : HealthLevelCritical ≠ HealthLevelWarning := by decide
  have hhw : HealthLevelHealthy ≠ HealthLevelWarning := by decide
  have hhc : HealthLevelHealthy ≠ HealthLevelCritical := by decide
  unfold allStep attnP
  rcases labelHealth_level_cases label issues cfg now stats with h | h | h <;>
    simp only [h] <;> simp [hwh, hch, hcw, hhw, hhc] <;> omega

theorem allFold_invariant (issues : List Issue) (cfg : LabelHealthConfig) (now : ℚ)
    (stats : GraphStats) (ls : List String) (acc : AllAccum) :
    (ls.foldl (allStep issues cfg now stats) acc).healthy +
      (ls.foldl (allStep issues cfg now stats) acc).warning +
      (ls.foldl (allStep issues cfg now stats) acc).critical =
      acc.healthy + acc.warning + acc.critical + ls.length ∧
    (ls.foldl (allStep issues cfg now stats) acc).labels =
      acc.labels ++ ls.map (fun l => ComputeLabelHealthForLabel l issues cfg now stats) ∧
    (ls.foldl (allStep issues cfg now stats) acc).attention =
      acc.attention ++ ls.filter (attnP issues cfg now stats) := by
  induction ls generalizing acc with
  | nil => simp
  | cons l rest ih =>
    simp only [List.foldl_cons, List.map_cons, List.filter_cons, List.length_cons]
    rcases ih (allStep issues cfg now stats acc l) with ⟨ih1, ih2, ih3⟩
    rcases allStep_cases issues cfg now stats acc l with ⟨s1, s2, s3⟩
    refine ⟨?_, ?_, ?_⟩
    · rw [ih1, s1]; omega
    · rw [ih2, s2]; simp
    · rw [ih3, s3]
      by_cases h : attnP issues cfg now stats l <;> simp [h]

theorem map_filter_label (issues : List Issue) (cfg : LabelHealthConfig) (now : ℚ)
    (stats : GraphStats) (ls : List String) :
    (((ls.map (fun l => ComputeLabelHealthForLabel l issues cfg now stats)).filter
        (fun h => decide (h.healthLevel = HealthLevelWarning ∨
          h.healthLevel = HealthLevelCritical))).map (fun h => h.label)) =
      ls.filter (attnP issues cfg now stats) := by
  induction ls with
  | nil => rfl
  | cons l rest ih =>
    simp only [List.map_cons, List.filter_cons]
    by_cases h : attnP issues cfg now stats l
    · have h2 : decide ((ComputeLabelHealthForLabel l issues cfg now stats).healthLevel =
          HealthLevelWarning ∨
          (ComputeLabelHealthForLabel l issues cfg now stats).healthLevel =
            HealthLevelCritical) = true := h
      simp only [h, h2, if_true, List.map_cons, ih, labelHealth_label_eq]
    · have h2 : decide ((ComputeLabelHealthForLabel l issues cfg now stats).healthLevel =
          HealthLevelWarning ∨
          (ComputeLabelHealthForLabel l issues cfg now stats).healthLevel =
            HealthLevelCritical) = false := eq_false_of_ne_true h
      have h3 : attnP issues cfg now stats l = false := eq_false_of_ne_true h
      simp only [h2, h3, if_false, Bool.false_eq_true, ih]

/-- Claim C9: for every issue collection, configuration, reference time and
    centrality snapshot, the LabelAnalysisResult of `ComputeAllLabelHealth`
    satisfies HealthyCount + WarningCount + CriticalCount = TotalLabels, and
    AttentionNeeded is exactly the list of labels whose HealthLevel is warning
    or critical, in lexicographic order. -/
theorem orchestrator_tallies_c9 (issues : List Issue) (cfg : LabelHealthConfig) (now : ℚ)
    (stats : GraphStats) :
    (ComputeAllLabelHealth issues cfg now stats).healthyCount +
      (ComputeAllLabelHealth issues cfg now stats).warningCount +
      (ComputeAllLabelHealth issues cfg now stats).criticalCount =
      (ComputeAllLabelHealth issues cfg now stats).totalLabels ∧
    (ComputeAllLabelHealth issues cfg now stats).attentionNeeded =
      (((ComputeAllLabelHealth issues cfg now stats).labels.filter
        (fun h => decide (h.healthLevel = HealthLevelWarning ∨
          h.healthLevel = HealthLevelCritical))).map (fun h => h.label)) ∧
    (ComputeAllLabelHealth issues cfg now stats).attentionNeeded.Sorted labelLe := by
  unfold ComputeAllLabelHealth
  simp only
  rcases allFold_invariant issues cfg now stats
    (sortStrings (ExtractLabels issues).labels) {} with ⟨h1, h2, h3⟩
  refine ⟨?_, ?_, ?_⟩
  · rw [h1]
    have hlen : (sortStrings (ExtractLabels issues).labels).length =
        (ExtractLabels issues).labels.length :=
      (List.perm_insertionSort labelLe _).length_eq
    have hcount : (ExtractLabels issues).labelCount = (ExtractLabels issues).labels.length := rfl
    simp [hlen, hcount]
  · rw [h3, h2]
    simp only [List.nil_append]
    rw [map_filter_label]
  · rw [h3]
    simp only [List.nil_append]
    exact List.Pairwise.sublist (List.filter_sublist _) (sortStrings_sorted _)
